import Mathlib

/-!
Shallow embedding of the Slack event-relay bridge
(`extensions/cli/src/integrations/slack/`): signature verification
(`verifySlackSignature` in webhook.ts), event handling (`handleEvent` in
slackIntegration.ts) and the polling loop (`pollAndSendResults`).

External collaborators (Node `crypto` HMAC, the Slack HTTP API, the backend
task API) are modelled as parameters / injectable results; the control flow
of the repository's own functions is transcribed from the source.
-/

namespace SlackBridge

/-! ## Signature verification (webhook.ts: `verifySlackSignature`) -/

/-- JS `parseInt(s, 10)` semantics: skip leading whitespace, optional sign,
maximal run of decimal digits; `none` for NaN (no digits). -/
def parseIntBase10 (s : String) : Option Int :=
  let cs := s.data.dropWhile Char.isWhitespace
  let (sign, cs') : Int × List Char :=
    match cs with
    | '-' :: rest => (-1, rest)
    | '+' :: rest => (1, rest)
    | _ => (1, cs)
  let ds := cs'.takeWhile Char.isDigit
  if ds.isEmpty then none
  else some (sign * (ds.foldl (fun acc c => acc * 10 + (c.toNat - '0'.toNat)) 0 : Nat))

/-- Node `crypto.timingSafeEqual` on the UTF-8 buffers of two strings:
throws (`RangeError`) when the byte lengths differ, otherwise compares the
bytes (which, at equal length, agree exactly when the strings are equal). -/
def timingSafeEqual (a b : String) : Except Unit Bool :=
  if a.utf8ByteSize ≠ b.utf8ByteSize then .error ()
  else .ok (a == b)

/-- `verifySlackSignature(signingSecret, requestSignature, timestamp, body)`.
`hmacSha256Hex secret msg` stands for Node's hex-encoded
`crypto.createHmac("sha256", secret).update(msg).digest("hex")` (an external
library, passed as a parameter); `now` is `Math.floor(Date.now() / 1000)`.
A NaN timestamp makes `Math.abs(time - timestampNum) > 300` false, so the
freshness branch is not taken. -/
def verifySlackSignature (hmacSha256Hex : String → String → String) (now : Int)
    (signingSecret requestSignature timestamp body : String) : Except Unit Bool :=
  let timestampNum := parseIntBase10 timestamp
  let reject : Bool :=
    match timestampNum with
    | none => false
    | some n => (now - n).natAbs > 300
  if reject then .ok false
  else
    let sigBasestring := "v0:" ++ timestamp ++ ":" ++ body
    let mySignature := "v0=" ++ hmacSha256Hex signingSecret sigBasestring
    timingSafeEqual mySignature requestSignature

/-! ## Event classification (webhook.ts) -/

/-- `SlackEvent` (webhook.ts): the fields the bridge reads. -/
structure SlackEvent where
  type : String
  event_ts : String
  user : String
  text : String
  channel : String
  channel_type : Option String
  deriving Repr, DecidableEq

/-- `isDirectMessage(event)`: `event.channel_type === "im"`. -/
def isDirectMessage (event : SlackEvent) : Bool :=
  event.channel_type = some "im"

/-- Does `pat` occur as a contiguous substring of `cs`? (JS `includes`.) -/
def hasSubstring (pat : List Char) : List Char → Bool
  | [] => pat.isEmpty
  | c :: rest => pat.isPrefixOf (c :: rest) || hasSubstring pat rest

/-- Leftmost, non-overlapping removal of every occurrence of the (non-empty)
literal `pat` — JS `text.replace(new RegExp(pat, "g"), "")`. Fuel-structured
so it reduces in the kernel; fuel = input length suffices, as each step
consumes at least one character. -/
def removeAllAux (pat : List Char) : Nat → List Char → List Char
  | 0, cs => cs
  | _ + 1, [] => []
  | fuel + 1, c :: rest =>
    if !pat.isEmpty && pat.isPrefixOf (c :: rest) then
      removeAllAux pat fuel ((c :: rest).drop pat.length)
    else c :: removeAllAux pat fuel rest

def removeAll (pat cs : List Char) : List Char :=
  removeAllAux pat cs.length cs

/-- JS `String.prototype.trim`: strip whitespace from both ends. -/
def trimChars (cs : List Char) : List Char :=
  ((cs.dropWhile Char.isWhitespace).reverse.dropWhile Char.isWhitespace).reverse

/-- The bot's literal mention token `"<@" + botUserId + ">"`. -/
def mentionToken (botUserId : String) : List Char :=
  ("<@" ++ botUserId ++ ">").data

/-- `isBotMentioned(text, botUserId)`: `text.includes("<@" + botUserId + ">")`. -/
def isBotMentioned (text botUserId : String) : Bool :=
  hasSubstring (mentionToken botUserId) text.data

/-- `extractMessageText(text, botUserId)`: remove every occurrence of the
mention token (global regex replace of a literal) and trim. -/
def extractMessageText (text botUserId : String) : String :=
  ⟨trimChars (removeAll (mentionToken botUserId) text.data)⟩

/-! ## handleEvent (slackIntegration.ts) -/

/-- The configuration fields `handleEvent` reads. -/
structure SlackIntegrationConfig where
  botUserId : String
  deriving Repr

/-- One outbound effect of `handleEvent`: a `SlackClient` call, the
`fetch` submission to the Continue API, or the un-awaited
`pollAndSendResults` spawn (the timer creation). -/
inductive Call where
  | postMessage (channel text : String)
  | updateMessage (channel ts text : String)
  | postEphemeral (channel user text : String)
  | submit (text : String)
  | spawnPoll (channel user ts : String)
  deriving Repr, DecidableEq

/-- `SlackMessageResponse` (client.ts): the fields `handleEvent` reads. -/
structure SlackMessageResponse where
  ok : Bool
  ts : Option String
  deriving Repr, DecidableEq

/-- JS truthiness of `ackResponse.ts` being falsy: absent or empty string. -/
def tsFalsy : Option String → Bool
  | none => true
  | some t => t = ""

/-- `response.ok` of a `fetch` response: status in the 200–299 range. -/
def responseOk (status : Nat) : Bool :=
  200 ≤ status && status < 300

/-- `formatError` (util/formatError.ts, outside the examined slice) is
embedded as the identity on the error's text. -/
def formatError (e : String) : String := e

/-- Results of the awaited external calls `handleEvent` makes, one per call
site, each allowed to reject (`.error`) so that thrown errors at every stage
are representable. `submitResult` is the `fetch` of `/message`: a transport
error or an HTTP status. -/
structure Env where
  emptyNoticeResult : Except String SlackMessageResponse
  ackResult : Except String SlackMessageResponse
  submitResult : Except String Nat
  queuedUpdateResult : Except String SlackMessageResponse
  errorUpdateResult : Except String SlackMessageResponse
  deriving Repr

/-- The dedup key: `` `${event.channel}:${event.event_ts}` ``. -/
def deliveryKey (event : SlackEvent) : String :=
  event.channel ++ ":" ++ event.event_ts

/-- The `catch` block of the inner `try` in `handleEvent`: update the
acknowledgment message with the formatted error. -/
def catchBranch (env : Env) (event : SlackEvent) (ts : String) (cs : List Call)
    (e : String) : Except String Unit × List Call :=
  let cs' := cs ++ [Call.updateMessage event.channel ts
    ("❌ Error processing your request: " ++ formatError e)]
  match env.errorUpdateResult with
  | .error e2 => (.error e2, cs')
  | .ok _ => (.ok (), cs')

/-- The body of `handleEvent`'s outer `try` block (after the dedup key has
been added): classification, text extraction, acknowledgment, submission,
and the spawn of `pollAndSendResults`. Returns the outcome (an uncaught
rejection, or normal return) together with the calls made. -/
def handleBody (cfg : SlackIntegrationConfig) (env : Env) (event : SlackEvent) :
    Except String Unit × List Call :=
  let isDM := isDirectMessage event
  if !isDM && !isBotMentioned event.text cfg.botUserId then (.ok (), [])
  else
    let messageText := extractMessageText event.text cfg.botUserId
    if messageText = "" then
      let cs := [Call.postMessage event.channel
        "Please provide a message for me to process."]
      match env.emptyNoticeResult with
      | .error e => (.error e, cs)
      | .ok _ => (.ok (), cs)
    else
      let cs := [Call.postMessage event.channel "🤖 Processing your request..."]
      match env.ackResult with
      | .error e => (.error e, cs)
      | .ok ackResponse =>
        if !ackResponse.ok || tsFalsy ackResponse.ts then (.ok (), cs)
        else
          let ts := ackResponse.ts.getD ""
          let cs := cs ++ [Call.submit messageText]
          match env.submitResult with
          | .error e => catchBranch env event ts cs e
          | .ok status =>
            if !responseOk status then
              catchBranch env event ts cs ("Continue API returned " ++ toString status)
            else
              let cs := cs ++ [Call.updateMessage event.channel ts
                "✅ Your request has been queued. I'll send you the results when complete."]
              match env.queuedUpdateResult with
              | .error e => catchBranch env event ts cs e
              | .ok _ => (.ok (), cs ++ [Call.spawnPoll event.channel event.user ts])

/-- `handleEvent`: the guards before the `try`, then the body with the
`finally { this.processingMessages.delete(messageId) }` applied on both the
normal and the rejected outcome. `s` is `processingMessages`; the result is
(outcome, calls made, final set). -/
def handleEvent (cfg : SlackIntegrationConfig) (env : Env) (event : SlackEvent)
    (s : List String) : Except String Unit × List Call × List String :=
  if event.type ≠ "message" then (.ok (), [], s)
  else if event.user = cfg.botUserId then (.ok (), [], s)
  else
    let messageId := deliveryKey event
    if s.contains messageId then (.ok (), [], s)
    else
      let s1 := messageId :: s
      let (r, calls) := handleBody cfg env event
      (r, calls, s1.erase messageId)

/-! ## pollAndSendResults (slackIntegration.ts) -/

/-- `history[i].message` as read by the polling loop. -/
structure ChatMessage where
  role : String
  content : Option String
  deriving Repr, DecidableEq

/-- One entry of `state.history` (the `message` field may be absent). -/
structure HistEntry where
  message : Option ChatMessage
  deriving Repr, DecidableEq

/-- The `/state` response of the Continue API as read by the polling loop:
`history` may be absent (falsy), plus `isProcessing` and `queueLength`. -/
structure ContinueState where
  history : Option (List HistEntry)
  isProcessing : Bool
  queueLength : Nat
  deriving Repr, DecidableEq

/-- A `client.updateMessage` call made by the polling loop, tagged by which
branch issued it. -/
inductive PollUpdate where
  | content (text : String)
  | completion
  | timeout
  | error (text : String)
  deriving Repr, DecidableEq

/-- The exact text each polling-loop update carries in the source. -/
def pollUpdateText : PollUpdate → String
  | .content t => t
  | .completion => "✅ Processing complete."
  | .timeout => "⏱️ Request timed out. The agent may still be processing in the background."
  | .error e => "❌ Error getting results: " ++ formatError e

/-- The mutable state captured by the `setInterval` callback: `polls`,
`lastMessageCount`, whether the interval is still scheduled, and the trace
of `updateMessage` calls made so far. -/
structure PollState where
  polls : Nat
  lastMessageCount : Nat
  timerActive : Bool
  updates : List PollUpdate
  deriving Repr, DecidableEq

/-- `const maxPolls = 300; // 5 minutes with 1 second intervals`. -/
def maxPolls : Nat := 300

/-- State at the moment `pollAndSendResults` installs the interval:
`polls = 0`, `lastMessageCount = 0`, timer scheduled, no updates yet. -/
def initPollState : PollState :=
  { polls := 0, lastMessageCount := 0, timerActive := true, updates := [] }

/-- The `if (state.history && state.history.length > lastMessageCount)`
block: returns the new `lastMessageCount` and the content update issued (at
most one), which requires the newest entry to be assistant-authored with
non-empty trimmed content. -/
def contentPhase (st : ContinueState) (lastMessageCount : Nat) :
    Nat × List PollUpdate :=
  match st.history with
  | none => (lastMessageCount, [])
  | some h =>
    if h.length > lastMessageCount then
      (h.length,
        match h.getLast? with
        | some entry =>
          match entry.message with
          | some m =>
            if m.role = "assistant" then
              match m.content with
              | some c =>
                if trimChars c.data ≠ [] then
                  [.content ("✅ Complete!\n\n" ++ c)]
                else []
              | none => []
            else []
          | none => []
        | none => [])
    else (lastMessageCount, [])

/-- One `setInterval` callback of `pollAndSendResults`. `resp` is the
outcome of `fetch(continueApiUrl + "/state")` plus its JSON decoding: a
thrown transport/HTTP error or a `ContinueState`. A callback after
`clearInterval` does not run (identity). -/
def pollTick (resp : Except String ContinueState) (s : PollState) : PollState :=
  if !s.timerActive then s
  else
    let polls := s.polls + 1
    if polls > maxPolls then
      { polls, lastMessageCount := s.lastMessageCount, timerActive := false,
        updates := s.updates ++ [.timeout] }
    else
      match resp with
      | .error e =>
        { polls, lastMessageCount := s.lastMessageCount, timerActive := false,
          updates := s.updates ++ [.error e] }
      | .ok st =>
        let (lastMessageCount, upds) := contentPhase st s.lastMessageCount
        if !st.isProcessing && st.queueLength == 0 then
          { polls, lastMessageCount, timerActive := false,
            updates := s.updates ++ upds ++
              (if lastMessageCount == 0 then [.completion] else []) }
        else
          { polls, lastMessageCount, timerActive := true,
            updates := s.updates ++ upds }

/-- Run the first `n` interval callbacks against the response sequence
`resps` (tick `i` receives `resps i`). -/
def runTicks (resps : Nat → Except String ContinueState) : Nat → PollState
  | 0 => initPollState
  | n + 1 => pollTick (resps n) (runTicks resps n)

/-! ## Concrete instances used in witnesses and counterexamples -/

def exEnv : Env :=
  { emptyNoticeResult := .ok ⟨true, some "1"⟩
    ackResult := .ok ⟨true, some "42.0"⟩
    submitResult := .ok 200
    queuedUpdateResult := .ok ⟨true, none⟩
    errorUpdateResult := .ok ⟨true, none⟩ }

def exEvent : SlackEvent :=
  { type := "message", event_ts := "111.0", user := "U2", text := "<@U1> run"
    channel := "C1", channel_type := some "im" }

def exUserEntryState : ContinueState :=
  { history := some [⟨some ⟨"user", some "hi"⟩⟩], isProcessing := false, queueLength := 0 }

/-- The empty-after-extraction delivery used to separate `postMessage` from
`postEphemeral`. -/
def emptyTextEvent : SlackEvent :=
  { exEvent with text := "<@U1>" }

/-- An environment whose Continue API submission returns HTTP 500. -/
def exEnvFail : Env :=
  { exEnv with submitResult := .ok 500 }

/-! ## Helper lemmas about the polling loop -/

/-- Is a poll update a content relay (as opposed to completion, timeout or
error)? -/
def isContentUpdate : PollUpdate → Bool
  | .content _ => true
  | _ => false

/-- Number of content-relay updates in a trace. -/
def countContent (l : List PollUpdate) : Nat :=
  l.countP (fun u => isContentUpdate u)

theorem countContent_append (l1 l2 : List PollUpdate) :
    countContent (l1 ++ l2) = countContent l1 + countContent l2 :=
  List.countP_append _ _ _

theorem pollTick_inactive (r : Except String ContinueState) (s : PollState)
    (h : s.timerActive = false) : pollTick r s = s := by
  simp [pollTick, h]

theorem contentPhase_shape (st : ContinueState) (last : Nat) :
    (contentPhase st last).2 = [] ∨ ∃ t, (contentPhase st last).2 = [.content t] := by
  rcases st with ⟨hist, proc, q⟩
  rcases hist with _ | h
  · exact .inl rfl
  · by_cases hl : h.length > last
    · rcases hg : h.getLast? with _ | entry
      · exact .inl (by simp [contentPhase, hl, hg])
      rcases hm : entry.message with _ | m
      · exact .inl (by simp [contentPhase, hl, hg, hm])
      by_cases hr : m.role = "assistant"
      case neg => exact .inl (by simp [contentPhase, hl, hg, hm, hr])
      rcases hc : m.content with _ | c
      · exact .inl (by simp [contentPhase, hl, hg, hm, hr, hc])
      by_cases ht : trimChars c.data = []
      · exact .inl (by simp [contentPhase, hl, hg, hm, hr, hc, ht])
      · exact .inr ⟨"✅ Complete!\n\n" ++ c, by simp [contentPhase, hl, hg, hm, hr, hc, ht]⟩
    · exact .inl (by simp [contentPhase, hl])

theorem contentPhase_count_completion (st : ContinueState) (last : Nat) :
    ((contentPhase st last).2).count PollUpdate.completion = 0 := by
  rcases contentPhase_shape st last with h | ⟨t, h⟩ <;> simp [h]

theorem contentPhase_count_timeout (st : ContinueState) (last : Nat) :
    ((contentPhase st last).2).count PollUpdate.timeout = 0 := by
  rcases contentPhase_shape st last with h | ⟨t, h⟩ <;> simp [h]

theorem contentPhase_countContent_of_nil
    {st : ContinueState} {last lmc : Nat}
    (hcp : contentPhase st last = (lmc, [])) :
    countContent (contentPhase st last).2 = 0 := by
  rw [hcp]
  rfl

theorem contentPhase_fst_ge (st : ContinueState) (last : Nat) (h : List HistEntry)
    (hh : st.history = some h) : h.length ≤ (contentPhase st last).1 := by
  by_cases hl : h.length > last
  · simp [contentPhase, hh, hl]
  · simp [contentPhase, hh, hl]
    omega

theorem contentPhase_no_growth (st : ContinueState) (last : Nat) (h : List HistEntry)
    (hh : st.history = some h) (hle : h.length ≤ last) :
    contentPhase st last = (last, []) := by
  simp [contentPhase, hh, Nat.not_lt.mpr hle]

theorem pollTick_normal (st : ContinueState) (s : PollState)
    (hA : s.timerActive = true) (hP : s.polls + 1 ≤ maxPolls) :
    pollTick (.ok st) s =
      (if !st.isProcessing && st.queueLength == 0 then
        { polls := s.polls + 1,
          lastMessageCount := (contentPhase st s.lastMessageCount).1,
          timerActive := false,
          updates := s.updates ++ (contentPhase st s.lastMessageCount).2 ++
            (if (contentPhase st s.lastMessageCount).1 == 0 then [.completion] else []) }
      else
        { polls := s.polls + 1,
          lastMessageCount := (contentPhase st s.lastMessageCount).1,
          timerActive := true,
          updates := s.updates ++ (contentPhase st s.lastMessageCount).2 }) := by
  have hP' : ¬ s.polls + 1 > maxPolls := by omega
  rcases hcp : contentPhase st s.lastMessageCount with ⟨lmc, upds⟩
  simp [pollTick, hA, hP', hcp]

theorem pollTick_timeout (r : Except String ContinueState) (s : PollState)
    (hA : s.timerActive = true) (hP : s.polls + 1 > maxPolls) :
    pollTick r s =
      { polls := s.polls + 1, lastMessageCount := s.lastMessageCount,
        timerActive := false, updates := s.updates ++ [.timeout] } := by
  simp [pollTick, hA, hP]

set_option maxRecDepth 4000 in
theorem runTicks_const_processing_300 :
    runTicks (fun _ => .ok ⟨none, true, 1⟩) 300 =
      { polls := 300, lastMessageCount := 0, timerActive := true, updates := [] } := by
  rfl

theorem contentPhase_emits_only_on_growth (st : ContinueState) (last : Nat)
    (hne : (contentPhase st last).2 ≠ []) :
    ∃ h entry m c, st.history = some h ∧ last < h.length ∧
      h.getLast? = some entry ∧ entry.message = some m ∧
      m.role = "assistant" ∧ m.content = some c ∧ trimChars c.data ≠ [] := by
  rcases st with ⟨hist, proc, q⟩
  rcases hist with _ | h
  · exact absurd rfl hne
  · by_cases hl : h.length > last
    case neg => exact absurd (by simp [contentPhase, hl]) hne
    case pos =>
      rcases hg : h.getLast? with _ | entry
      · exact absurd (by simp [contentPhase, hl, hg]) hne
      rcases hm : entry.message with _ | m
      · exact absurd (by simp [contentPhase, hl, hg, hm]) hne
      by_cases hr : m.role = "assistant"
      case neg => exact absurd (by simp [contentPhase, hl, hg, hm, hr]) hne
      rcases hc : m.content with _ | c
      · exact absurd (by simp [contentPhase, hl, hg, hm, hr, hc]) hne
      by_cases ht : trimChars c.data = []
      · exact absurd (by simp [contentPhase, hl, hg, hm, hr, hc, ht]) hne
      · exact ⟨h, entry, m, c, rfl, hl, hg, hm, hr, hc, ht⟩

theorem pollTick_same_length_no_content (s : PollState) (st1 st2 : ContinueState)
    (h1 h2 : List HistEntry)
    (hh1 : st1.history = some h1) (hh2 : st2.history = some h2)
    (hlen : h1.length = h2.length) :
    countContent (pollTick (.ok st2) (pollTick (.ok st1) s)).updates =
      countContent (pollTick (.ok st1) s).updates := by
  by_cases hA : s.timerActive = true
  · by_cases hP : s.polls + 1 ≤ maxPolls
    · rw [pollTick_normal st1 s hA hP]
      by_cases hterm : (!st1.isProcessing && st1.queueLength == 0) = true
      · rw [if_pos hterm]
        rw [pollTick_inactive _ _ rfl]
      · rw [if_neg hterm]
        set s1 : PollState :=
          { polls := s.polls + 1,
            lastMessageCount := (contentPhase st1 s.lastMessageCount).1,
            timerActive := true,
            updates := s.updates ++ (contentPhase st1 s.lastMessageCount).2 } with hs1
        have hge : h2.length ≤ s1.lastMessageCount := by
          rw [hs1, ← hlen]
          exact contentPhase_fst_ge st1 s.lastMessageCount h1 hh1
        have hcp2 : contentPhase st2 s1.lastMessageCount = (s1.lastMessageCount, []) :=
          contentPhase_no_growth st2 s1.lastMessageCount h2 hh2 hge
        by_cases hP2 : s1.polls + 1 ≤ maxPolls
        · rw [pollTick_normal st2 s1 rfl hP2, hcp2]
          by_cases hterm2 : (!st2.isProcessing && st2.queueLength == 0) = true
          · rw [if_pos hterm2]
            by_cases h0 : (s1.lastMessageCount == 0) = true <;>
              simp [h0, countContent_append, countContent, isContentUpdate]
          · rw [if_neg hterm2]
            simp [countContent_append, countContent, isContentUpdate]
        · rw [pollTick_timeout _ s1 rfl (by omega)]
          simp [countContent_append, countContent, isContentUpdate]
    · rw [pollTick_timeout _ s hA (by omega)]
      rw [pollTick_inactive _ _ rfl]
  · have hA2 : s.timerActive = false := by simpa using hA
    rw [pollTick_inactive _ s hA2, pollTick_inactive _ s hA2]

/-! ## Helper lemmas -/

theorem timingSafeEqual_ok_true (a b : String) :
    timingSafeEqual a b = .ok true ↔ b = a := by
  unfold timingSafeEqual
  by_cases h : a.utf8ByteSize = b.utf8ByteSize
  · simp only [h, ne_eq, not_true_eq_false, if_false, Except.ok.injEq, beq_iff_eq]
    exact ⟨fun h' => h'.symm, fun h' => h'.symm⟩
  · simp only [ne_eq, h, not_false_eq_true, if_true]
    constructor
    · intro h'; exact absurd h' (by simp)
    · intro h'; exact absurd (by rw [h']) h

theorem verifySlackSignature_fresh_reject (hmac : String → String → String)
    (now : Int) (secret sig ts body : String) (n : Int)
    (hn : parseIntBase10 ts = some n) (hfar : 300 < (now - n).natAbs) :
    verifySlackSignature hmac now secret sig ts body = .ok false := by
  unfold verifySlackSignature
  rw [hn]
  simp only [gt_iff_lt]
  rw [if_pos (by simpa using hfar)]

/-! ## Claims about the signature verifier -/

/-- C2 counterexample: with the timestamp header `"abc"` (which `parseInt`
cannot parse), `verifySlackSignature` still returns `true` for a matching
signature, so "returns true iff the timestamp parses to a time within 300
seconds of now and the signature matches" is false at this input. -/
theorem C2_counterexample :
    ¬ (verifySlackSignature (fun _ _ => "d") 0 "s" "v0=d" "abc" "b" = .ok true ↔
        ((∃ n, parseIntBase10 "abc" = some n ∧ (0 - n).natAbs ≤ 300) ∧
          "v0=d" = "v0=" ++ (fun _ _ => "d") "s" ("v0:" ++ "abc" ++ ":" ++ "b"))) := by
  intro hiff
  have h1 : verifySlackSignature (fun _ _ => "d") 0 "s" "v0=d" "abc" "b" = .ok true := by rfl
  obtain ⟨⟨n, hn, _⟩, _⟩ := hiff.mp h1
  rw [show parseIntBase10 "abc" = none from by decide] at hn
  exact Option.noConfusion hn

/-- C2 (amended): `verifySlackSignature` returns `.ok true` iff the
freshness check does not reject — the timestamp either fails to parse (the
NaN comparison is false) or parses to within 300 seconds of now — and the
supplied signature equals `"v0=" ++ hex(HMAC-SHA256(secret, "v0:" ++ ts ++
":" ++ body))`; and whenever the timestamp parses to a value more than 300
seconds from now it returns `.ok false` (no throw) regardless of the
supplied signature. -/
theorem C2_verifySlackSignature_spec (hmac : String → String → String)
    (now : Int) (secret sig ts body : String) :
    (verifySlackSignature hmac now secret sig ts body = .ok true ↔
      ((∀ n, parseIntBase10 ts = some n → (now - n).natAbs ≤ 300) ∧
        sig = "v0=" ++ hmac secret ("v0:" ++ ts ++ ":" ++ body))) ∧
    (∀ n, parseIntBase10 ts = some n → 300 < (now - n).natAbs →
      verifySlackSignature hmac now secret sig ts body = .ok false) := by
  constructor
  · unfold verifySlackSignature
    cases hp : parseIntBase10 ts with
    | none =>
      simp only [hp, Bool.false_eq_true, if_false]
      rw [timingSafeEqual_ok_true]
      constructor
      · intro h; exact ⟨fun n hn => Option.noConfusion hn, h⟩
      · intro h; exact h.2
    | some n =>
      simp only [hp, gt_iff_lt]
      by_cases hfar : 300 < (now - n).natAbs
      · rw [if_pos (by simpa using hfar)]
        constructor
        · intro h; exact absurd h (by simp)
        · rintro ⟨hfresh, -⟩
          exact absurd (hfresh n rfl) (by omega)
      · rw [if_neg (by simpa using hfar)]
        rw [timingSafeEqual_ok_true]
        constructor
        · intro h
          refine ⟨fun m hm => ?_, h⟩
          obtain rfl : m = n := by injection hm.symm
          omega
        · intro h; exact h.2
  · intro n hn hfar
    exact verifySlackSignature_fresh_reject hmac now secret sig ts body n hn hfar

/-- C2 witness: a concrete in-window, matching-signature input accepted via
the amended specification. -/
theorem C2_witness :
    verifySlackSignature (fun _ _ => "d") 1000 "s" "v0=d" "1000" "b" = .ok true :=
  (C2_verifySlackSignature_spec (fun _ _ => "d") 1000 "s" "v0=d" "1000" "b").1.mpr
    ⟨fun n hn => by
      rw [show parseIntBase10 "1000" = some 1000 from by decide] at hn
      injection hn with h
      omega, rfl⟩

/-- C9: when the timestamp header does not parse (`parseInt` yields NaN),
the freshness check does not reject: verification falls through to the
signature comparison, and the outcome is independent of the current time. -/
theorem C9_nan_timestamp_skips_freshness (hmac : String → String → String)
    (now now' : Int) (secret sig ts body : String)
    (h : parseIntBase10 ts = none) :
    verifySlackSignature hmac now secret sig ts body =
      timingSafeEqual ("v0=" ++ hmac secret ("v0:" ++ ts ++ ":" ++ body)) sig ∧
    verifySlackSignature hmac now secret sig ts body =
      verifySlackSignature hmac now' secret sig ts body := by
  constructor
  · simp [verifySlackSignature, h]
  · simp [verifySlackSignature, h]

/-- C9 witness: with the unparseable timestamp `"abc"`, verification at two
very different clock times gives the same result. -/
theorem C9_witness :
    verifySlackSignature (fun _ _ => "d") 999999 "s" "v0=d" "abc" "b" =
      verifySlackSignature (fun _ _ => "d") 0 "s" "v0=d" "abc" "b" :=
  (C9_nan_timestamp_skips_freshness (fun _ _ => "d") 999999 0 "s" "v0=d" "abc" "b"
    (by decide)).2

/-! ## Helper lemmas about handleEvent -/

theorem contains_eq_false_of_not_mem {s : List String} {a : String}
    (h : a ∉ s) : s.contains a = false := by
  simpa using h

theorem guard_eq_false {cfg : SlackIntegrationConfig} {event : SlackEvent}
    (h4 : (isDirectMessage event || isBotMentioned event.text cfg.botUserId) = true) :
    (!isDirectMessage event && !isBotMentioned event.text cfg.botUserId) = false := by
  cases hDM : isDirectMessage event <;>
    cases hM : isBotMentioned event.text cfg.botUserId <;> simp_all

theorem handleEvent_preserves_set (cfg : SlackIntegrationConfig) (env : Env)
    (event : SlackEvent) (s : List String) :
    (handleEvent cfg env event s).2.2 = s := by
  rcases hb : handleBody cfg env event with ⟨r, calls⟩
  unfold handleEvent
  simp only [hb]
  split
  · rfl
  · split
    · rfl
    · split
      · rfl
      · simp [List.erase_cons_head]

theorem handleEvent_duplicate (cfg : SlackIntegrationConfig) (env : Env)
    (event : SlackEvent) (s : List String) (h : deliveryKey event ∈ s) :
    handleEvent cfg env event s = (.ok (), [], s) := by
  unfold handleEvent
  split
  · rfl
  · split
    · rfl
    · rw [if_pos (by simpa using h)]

theorem handleEvent_calls_eq_handleBody (cfg : SlackIntegrationConfig) (env : Env)
    (event : SlackEvent) (s : List String)
    (h1 : event.type = "message") (h2 : event.user ≠ cfg.botUserId)
    (h3 : deliveryKey event ∉ s) :
    (handleEvent cfg env event s).2.1 = (handleBody cfg env event).2 := by
  have hc : s.contains (deliveryKey event) = false := contains_eq_false_of_not_mem h3
  rcases hb : handleBody cfg env event with ⟨r, calls⟩
  simp [handleEvent, h1, h2, hc, hb, h3]

theorem handleBody_empty_text (cfg : SlackIntegrationConfig) (env : Env)
    (event : SlackEvent)
    (h4 : (isDirectMessage event || isBotMentioned event.text cfg.botUserId) = true)
    (h5 : extractMessageText event.text cfg.botUserId = "") :
    (handleBody cfg env event).2 =
      [Call.postMessage event.channel "Please provide a message for me to process."] := by
  cases henv : env.emptyNoticeResult <;>
    simp [handleBody, guard_eq_false h4, h5, henv]

theorem handleBody_submit_fail (cfg : SlackIntegrationConfig) (env : Env)
    (event : SlackEvent) (ack : SlackMessageResponse)
    (h4 : (isDirectMessage event || isBotMentioned event.text cfg.botUserId) = true)
    (h5 : extractMessageText event.text cfg.botUserId ≠ "")
    (h6 : env.ackResult = .ok ack) (h7 : ack.ok = true) (h8 : tsFalsy ack.ts = false)
    (h9 : (∃ e, env.submitResult = .error e) ∨
      (∃ st, env.submitResult = .ok st ∧ responseOk st = false)) :
    ∃ e, (handleBody cfg env event).2 =
      [Call.postMessage event.channel "🤖 Processing your request...",
        Call.submit (extractMessageText event.text cfg.botUserId),
        Call.updateMessage event.channel (ack.ts.getD "")
          ("❌ Error processing your request: " ++ formatError e)] := by
  rcases h9 with ⟨e, he⟩ | ⟨st, hst, hok⟩
  · refine ⟨e, ?_⟩
    cases henv : env.errorUpdateResult <;>
      simp [handleBody, catchBranch, guard_eq_false h4, h5, h6, h7, h8, he, henv]
  · refine ⟨"Continue API returned " ++ toString st, ?_⟩
    cases henv : env.errorUpdateResult <;>
      simp [handleBody, catchBranch, guard_eq_false h4, h5, h6, h7, h8, hst, hok, henv]

theorem handleBody_success (cfg : SlackIntegrationConfig) (env : Env)
    (event : SlackEvent) (ack : SlackMessageResponse) (st : Nat)
    (q : SlackMessageResponse)
    (h4 : (isDirectMessage event || isBotMentioned event.text cfg.botUserId) = true)
    (h5 : extractMessageText event.text cfg.botUserId ≠ "")
    (h6 : env.ackResult = .ok ack) (h7 : ack.ok = true) (h8 : tsFalsy ack.ts = false)
    (h9 : env.submitResult = .ok st) (h10 : responseOk st = true)
    (h11 : env.queuedUpdateResult = .ok q) :
    (handleBody cfg env event).2 =
      [Call.postMessage event.channel "🤖 Processing your request...",
        Call.submit (extractMessageText event.text cfg.botUserId),
        Call.updateMessage event.channel (ack.ts.getD "")
          "✅ Your request has been queued. I'll send you the results when complete.",
        Call.spawnPoll event.channel event.user (ack.ts.getD "")] := by
  simp [handleBody, guard_eq_false h4, h5, h6, h7, h8, h9, h10, h11]

/-! ## Claims about handleEvent -/

/-- C4 counterexample: a processed delivery whose extracted text is empty
makes exactly one channel-visible `postMessage` call — no `postEphemeral`
(user-private) call is ever made, contradicting the claimed ephemeral
notice. -/
theorem C4_counterexample :
    (handleEvent ⟨"U1"⟩ exEnv emptyTextEvent []).2.1 =
      [Call.postMessage "C1" "Please provide a message for me to process."] ∧
    ¬ ∃ ch u t, Call.postEphemeral ch u t ∈
      (handleEvent ⟨"U1"⟩ exEnv emptyTextEvent []).2.1 := by
  refine ⟨by rfl, ?_⟩
  rintro ⟨ch, u, t, hmem⟩
  rw [show (handleEvent ⟨"U1"⟩ exEnv emptyTextEvent []).2.1 =
      [Call.postMessage "C1" "Please provide a message for me to process."] from rfl] at hmem
  simp at hmem

/-- C4 (amended): for every processed delivery whose extracted text is empty
after mention removal and trimming, the bridge posts a channel-visible
"please provide a message" notice via `postMessage` (not an ephemeral) and
stops without creating a session: no processing message, no backend
submission, no timer, and the dedup set is restored. -/
theorem C4_empty_text (cfg : SlackIntegrationConfig) (env : Env)
    (event : SlackEvent) (s : List String)
    (h1 : event.type = "message") (h2 : event.user ≠ cfg.botUserId)
    (h3 : deliveryKey event ∉ s)
    (h4 : (isDirectMessage event || isBotMentioned event.text cfg.botUserId) = true)
    (h5 : extractMessageText event.text cfg.botUserId = "") :
    (handleEvent cfg env event s).2.1 =
      [Call.postMessage event.channel "Please provide a message for me to process."] ∧
    (handleEvent cfg env event s).2.2 = s := by
  refine ⟨?_, handleEvent_preserves_set cfg env event s⟩
  rw [handleEvent_calls_eq_handleBody cfg env event s h1 h2 h3]
  exact handleBody_empty_text cfg env event h4 h5

/-- C4 witness: a whitespace-and-mention-only DM triggers exactly the single
channel notice. -/
theorem C4_witness :
    (handleEvent ⟨"U1"⟩ exEnv { exEvent with text := " <@U1> " } []).2.1 =
      [Call.postMessage "C1" "Please provide a message for me to process."] ∧
    (handleEvent ⟨"U1"⟩ exEnv { exEvent with text := " <@U1> " } []).2.2 = [] :=
  C4_empty_text ⟨"U1"⟩ exEnv { exEvent with text := " <@U1> " } []
    (by decide) (by decide) (by decide) (by decide) (by decide)

/-- C5: `handleEvent` leaves the in-flight set exactly as it found it on
every exit path — normal return, early return, or an injected rejection at
any awaited stage — so a delivery's dedup key (channelId + ":" +
eventTimestamp) is absent once the routine finishes whenever it was not
already held by a concurrent invocation. -/
theorem C5_dedup_key_released (cfg : SlackIntegrationConfig) (env : Env)
    (event : SlackEvent) (s : List String) :
    (handleEvent cfg env event s).2.2 = s ∧
    (deliveryKey event ∉ s → deliveryKey event ∉ (handleEvent cfg env event s).2.2) := by
  have h := handleEvent_preserves_set cfg env event s
  exact ⟨h, fun hn => by rw [h]; exact hn⟩

/-- C5 witness: a concrete successful delivery leaves the set empty. -/
theorem C5_witness :
    (handleEvent ⟨"U1"⟩ exEnv exEvent []).2.2 = [] ∧
    deliveryKey exEvent ∉ (handleEvent ⟨"U1"⟩ exEnv exEvent []).2.2 :=
  ⟨(C5_dedup_key_released ⟨"U1"⟩ exEnv exEvent []).1,
    (C5_dedup_key_released ⟨"U1"⟩ exEnv exEvent []).2 (by decide)⟩

/-- C6: when a delivery's dedup key is already in the in-flight set, the
event-processing routine returns normally with no calls at all (no post,
update, or ephemeral relay) and the set unchanged — the duplicate is
dropped silently. -/
theorem C6_duplicate_dropped (cfg : SlackIntegrationConfig) (env : Env)
    (event : SlackEvent) (s : List String) (h : deliveryKey event ∈ s) :
    handleEvent cfg env event s = (.ok (), [], s) :=
  handleEvent_duplicate cfg env event s h

/-- C6 witness: the concrete delivery whose key is held is dropped with no
calls. -/
theorem C6_witness :
    handleEvent ⟨"U1"⟩ exEnv exEvent ["C1:111.0"] = (.ok (), [], ["C1:111.0"]) :=
  C6_duplicate_dropped ⟨"U1"⟩ exEnv exEvent ["C1:111.0"] (by decide)

/-- C8: when the backend submission fetch throws or returns a non-success
status, the already-posted processing message is updated with a formatted
error notice and no polling session is spawned (`Call.spawnPoll`, the only
timer-creating effect, never appears among the calls). -/
theorem C8_submission_failure (cfg : SlackIntegrationConfig) (env : Env)
    (event : SlackEvent) (s : List String) (ack : SlackMessageResponse)
    (h1 : event.type = "message") (h2 : event.user ≠ cfg.botUserId)
    (h3 : deliveryKey event ∉ s)
    (h4 : (isDirectMessage event || isBotMentioned event.text cfg.botUserId) = true)
    (h5 : extractMessageText event.text cfg.botUserId ≠ "")
    (h6 : env.ackResult = .ok ack) (h7 : ack.ok = true) (h8 : tsFalsy ack.ts = false)
    (h9 : (∃ e, env.submitResult = .error e) ∨
      (∃ st, env.submitResult = .ok st ∧ responseOk st = false)) :
    (∃ e, (handleEvent cfg env event s).2.1 =
      [Call.postMessage event.channel "🤖 Processing your request...",
        Call.submit (extractMessageText event.text cfg.botUserId),
        Call.updateMessage event.channel (ack.ts.getD "")
          ("❌ Error processing your request: " ++ formatError e)]) ∧
    (∀ ch u t, Call.spawnPoll ch u t ∉ (handleEvent cfg env event s).2.1) := by
  have hcalls := handleEvent_calls_eq_handleBody cfg env event s h1 h2 h3
  obtain ⟨e, he⟩ := handleBody_submit_fail cfg env event ack h4 h5 h6 h7 h8 h9
  rw [hcalls, he]
  refine ⟨⟨e, rfl⟩, ?_⟩
  intro ch u t hmem
  simp at hmem

/-- C8 witness: with a concrete HTTP 500 submission, no polling session is
spawned. -/
theorem C8_witness :
    Call.spawnPoll "C1" "U2" "42.0" ∉ (handleEvent ⟨"U1"⟩ exEnvFail exEvent []).2.1 :=
  (C8_submission_failure ⟨"U1"⟩ exEnvFail exEvent [] ⟨true, some "42.0"⟩
    (by decide) (by decide) (by decide) (by decide) (by decide)
    rfl (by decide) (by decide) (Or.inr ⟨500, rfl, by decide⟩)).2 "C1" "U2" "42.0"

/-- C10: after a successful submission, `handleEvent` finishes with the
dedup key already released while the polling session it spawned is still in
its initial, non-terminal state (timer active); a duplicate delivery with
the same key processed afterwards therefore acquires the gate and spawns a
second polling session for the same channel. -/
theorem C10_duplicate_after_submission (cfg : SlackIntegrationConfig) (env : Env)
    (event : SlackEvent) (s : List String) (ack : SlackMessageResponse)
    (st : Nat) (q : SlackMessageResponse)
    (h1 : event.type = "message") (h2 : event.user ≠ cfg.botUserId)
    (h3 : deliveryKey event ∉ s)
    (h4 : (isDirectMessage event || isBotMentioned event.text cfg.botUserId) = true)
    (h5 : extractMessageText event.text cfg.botUserId ≠ "")
    (h6 : env.ackResult = .ok ack) (h7 : ack.ok = true) (h8 : tsFalsy ack.ts = false)
    (h9 : env.submitResult = .ok st) (h10 : responseOk st = true)
    (h11 : env.queuedUpdateResult = .ok q) :
    Call.spawnPoll event.channel event.user (ack.ts.getD "") ∈
      (handleEvent cfg env event s).2.1 ∧
    deliveryKey event ∉ (handleEvent cfg env event s).2.2 ∧
    initPollState.timerActive = true ∧
    Call.spawnPoll event.channel event.user (ack.ts.getD "") ∈
      (handleEvent cfg env event ((handleEvent cfg env event s).2.2)).2.1 := by
  have hset := handleEvent_preserves_set cfg env event s
  have hcalls := handleEvent_calls_eq_handleBody cfg env event s h1 h2 h3
  have hbody := handleBody_success cfg env event ack st q h4 h5 h6 h7 h8 h9 h10 h11
  refine ⟨?_, ?_, rfl, ?_⟩
  · rw [hcalls, hbody]; simp
  · rw [hset]; exact h3
  · rw [hset, hcalls, hbody]; simp

/-- C10 witness: the concrete duplicate delivery, processed right after the
first finishes, spawns a second polling session. -/
theorem C10_witness :
    Call.spawnPoll "C1" "U2" "42.0" ∈
      (handleEvent ⟨"U1"⟩ exEnv exEvent ((handleEvent ⟨"U1"⟩ exEnv exEvent []).2.2)).2.1 :=
  (C10_duplicate_after_submission ⟨"U1"⟩ exEnv exEvent [] ⟨true, some "42.0"⟩ 200 ⟨true, none⟩
    (by decide) (by decide) (by decide) (by decide) (by decide)
    rfl (by decide) (by decide) rfl (by decide) rfl).2.2.2

/-! ## Claims about the polling loop -/

/-- C1 counterexample: a single tick observing a one-entry history whose
newest entry is user-authored, with `isProcessing=false` and
`queueLength=0`, cancels the timer and ends the session with an empty
update trace — no content was ever relayed yet no generic completion notice
is posted, so the terminal outcome is silent. -/
theorem C1_counterexample :
    (pollTick (.ok exUserEntryState) initPollState).timerActive = false ∧
    (pollTick (.ok exUserEntryState) initPollState).updates = [] ∧
    exUserEntryState.isProcessing = false ∧ exUserEntryState.queueLength = 0 ∧
    initPollState.updates = [] :=
  ⟨rfl, rfl, rfl, rfl, rfl⟩

/-- C1 (amended): on a tick within the poll budget that observes
`isProcessing=false` and `queueLength=0`, the timer is cancelled, and a
generic completion notice is posted (exactly one more in the trace) iff the
recorded history length after that tick's content phase is zero; when
history entries were observed but none relayed, the session ends with no
terminal message. -/
theorem C1_terminal_tick (s : PollState) (st : ContinueState)
    (hA : s.timerActive = true) (hP : s.polls + 1 ≤ maxPolls)
    (hproc : st.isProcessing = false) (hq : st.queueLength = 0) :
    (pollTick (.ok st) s).timerActive = false ∧
    (pollTick (.ok st) s).lastMessageCount = (contentPhase st s.lastMessageCount).1 ∧
    (pollTick (.ok st) s).updates.count PollUpdate.completion =
      s.updates.count PollUpdate.completion +
        (if (pollTick (.ok st) s).lastMessageCount = 0 then 1 else 0) := by
  rw [pollTick_normal st s hA hP]
  rw [if_pos (by simp [hproc, hq])]
  refine ⟨rfl, rfl, ?_⟩
  by_cases h0 : (contentPhase st s.lastMessageCount).1 = 0 <;>
    simp [h0, List.count_append, contentPhase_count_completion]

/-- C1 witness: a terminal tick with no history observed posts exactly one
completion notice. -/
theorem C1_witness :
    (pollTick (.ok ⟨none, false, 0⟩) initPollState).timerActive = false ∧
    (pollTick (.ok ⟨none, false, 0⟩) initPollState).lastMessageCount =
      (contentPhase ⟨none, false, 0⟩ initPollState.lastMessageCount).1 ∧
    (pollTick (.ok ⟨none, false, 0⟩) initPollState).updates.count PollUpdate.completion =
      initPollState.updates.count PollUpdate.completion +
        (if (pollTick (.ok ⟨none, false, 0⟩) initPollState).lastMessageCount = 0
          then 1 else 0) :=
  C1_terminal_tick initPollState ⟨none, false, 0⟩ rfl (by decide) rfl rfl

theorem runTicks_processing (resps : Nat → Except String ContinueState) (n : Nat)
    (hn : n ≤ maxPolls)
    (h : ∀ i, i < n → ∃ st, resps i = .ok st ∧ st.isProcessing = true) :
    (runTicks resps n).polls = n ∧ (runTicks resps n).timerActive = true ∧
    (runTicks resps n).updates.count PollUpdate.timeout = 0 := by
  induction n with
  | zero => exact ⟨rfl, rfl, rfl⟩
  | succ m ih =>
    obtain ⟨hp, hA, hc⟩ := ih (by omega) (fun i hi => h i (by omega))
    obtain ⟨st, hst, hproc⟩ := h m (by omega)
    have hP : (runTicks resps m).polls + 1 ≤ maxPolls := by omega
    have hstep : runTicks resps (m + 1) = pollTick (.ok st) (runTicks resps m) := by
      rw [runTicks, hst]
    rw [hstep, pollTick_normal st (runTicks resps m) hA hP,
      if_neg (by simp [hproc])]
    refine ⟨by simp [hp], rfl, ?_⟩
    simp [List.count_append, hc, contentPhase_count_timeout]

/-- C3 counterexample: after 300 poll ticks with `isProcessing=true`
throughout, the timer is still active (so a 301st callback will fire) and
no timeout notice has been posted — the claimed timeout after the 300th
tick does not happen. -/
theorem C3_counterexample :
    (runTicks (fun _ => .ok ⟨none, true, 1⟩) 300).timerActive = true ∧
    (runTicks (fun _ => .ok ⟨none, true, 1⟩) 300).updates = [] ∧
    (runTicks (fun _ => .ok ⟨none, true, 1⟩) 300).polls = 300 := by
  refine ⟨?_, ?_, ?_⟩ <;>
    rw [show runTicks (fun _ => .ok ⟨none, true, 1⟩) 300 =
      { polls := 300, lastMessageCount := 0, timerActive := true, updates := [] }
      from runTicks_const_processing_300]

/-- C3 (amended): after 300 poll ticks with the backend reporting
`isProcessing=true` throughout, no timeout notice has been posted and the
timer is still active; the 301st interval callback — whose result is
independent of the backend response, i.e. no state query is consulted —
cancels the timer and posts exactly one timeout notice, and once the timer
is cancelled every further callback leaves the session unchanged. -/
theorem C3_timeout_on_tick_301 (resps : Nat → Except String ContinueState)
    (h : ∀ i, i < maxPolls → ∃ st, resps i = .ok st ∧ st.isProcessing = true) :
    (runTicks resps maxPolls).timerActive = true ∧
    (runTicks resps maxPolls).updates.count PollUpdate.timeout = 0 ∧
    (∀ r, (pollTick r (runTicks resps maxPolls)).timerActive = false ∧
      (pollTick r (runTicks resps maxPolls)).updates.count PollUpdate.timeout = 1) ∧
    (∀ r r', pollTick r (runTicks resps maxPolls) =
      pollTick r' (runTicks resps maxPolls)) ∧
    (∀ r s', s'.timerActive = false → pollTick r s' = s') := by
  obtain ⟨hp, hA, hc⟩ := runTicks_processing resps maxPolls (by omega) h
  have htimeout : ∀ r, pollTick r (runTicks resps maxPolls) =
      { polls := (runTicks resps maxPolls).polls + 1,
        lastMessageCount := (runTicks resps maxPolls).lastMessageCount,
        timerActive := false,
        updates := (runTicks resps maxPolls).updates ++ [.timeout] } := by
    intro r
    exact pollTick_timeout r _ hA (by omega)
  refine ⟨hA, hc, ?_, ?_, ?_⟩
  · intro r
    rw [htimeout r]
    refine ⟨rfl, ?_⟩
    simp [List.count_append, hc]
  · intro r r'
    rw [htimeout r, htimeout r']
  · intro r s' hs'
    exact pollTick_inactive r s' hs'

/-- C3 witness: the constant `isProcessing=true` response sequence reaches
tick 300 with the timer active and posts the single timeout notice on the
next callback. -/
theorem C3_witness :
    (runTicks (fun _ => .ok ⟨none, true, 1⟩) maxPolls).timerActive = true ∧
    (pollTick (.ok ⟨none, true, 1⟩)
      (runTicks (fun _ => .ok ⟨none, true, 1⟩) maxPolls)).timerActive = false ∧
    (pollTick (.ok ⟨none, true, 1⟩)
      (runTicks (fun _ => .ok ⟨none, true, 1⟩) maxPolls)).updates.count
        PollUpdate.timeout = 1 :=
  have h := C3_timeout_on_tick_301 (fun _ => .ok ⟨none, true, 1⟩)
    (fun _ _ => ⟨⟨none, true, 1⟩, rfl, rfl⟩)
  ⟨h.1, (h.2.2.1 (.ok ⟨none, true, 1⟩)).1, (h.2.2.1 (.ok ⟨none, true, 1⟩)).2⟩

/-- C7: two consecutive ticks observing the same history length never relay
content twice — the second tick adds no content update to the trace — and a
content update is only ever produced when the observed history length
exceeds the recorded one and the newest entry is assistant-authored with
non-empty trimmed content. -/
theorem C7_content_relay_idempotent :
    (∀ (s : PollState) (st1 st2 : ContinueState) (h1 h2 : List HistEntry),
      st1.history = some h1 → st2.history = some h2 → h1.length = h2.length →
      countContent (pollTick (.ok st2) (pollTick (.ok st1) s)).updates =
        countContent (pollTick (.ok st1) s).updates) ∧
    (∀ (st : ContinueState) (last : Nat),
      (contentPhase st last).2 ≠ [] →
      ∃ h entry m c, st.history = some h ∧ last < h.length ∧
        h.getLast? = some entry ∧ entry.message = some m ∧
        m.role = "assistant" ∧ m.content = some c ∧ trimChars c.data ≠ []) :=
  ⟨pollTick_same_length_no_content, contentPhase_emits_only_on_growth⟩

/-- C7 witness: a tick that relays content followed by a tick observing the
same history length leaves the content-update count unchanged. -/
theorem C7_witness :
    countContent (pollTick (.ok ⟨some [⟨some ⟨"assistant", some "42"⟩⟩], true, 1⟩)
      (pollTick (.ok ⟨some [⟨some ⟨"assistant", some "42"⟩⟩], true, 1⟩)
        initPollState)).updates =
    countContent (pollTick (.ok ⟨some [⟨some ⟨"assistant", some "42"⟩⟩], true, 1⟩)
      initPollState).updates :=
  C7_content_relay_idempotent.1 initPollState
    ⟨some [⟨some ⟨"assistant", some "42"⟩⟩], true, 1⟩
    ⟨some [⟨some ⟨"assistant", some "42"⟩⟩], true, 1⟩
    [⟨some ⟨"assistant", some "42"⟩⟩] [⟨some ⟨"assistant", some "42"⟩⟩]
    rfl rfl rfl

end SlackBridge
